import Mathlib

/-!
Verification development for the Forecast_Reports pipeline
(`build_forecast_accuracy_report.py`, `build_forecast_accuracy_report_db.py`,
`build_forecast_accuracy_trend_report_db.py`).

Shallow embedding conventions:
* pandas string cells are `Option String` (`none` models a null/NaN cell);
  `pyStr` models `astype(str)`, which renders a null cell as the text "nan".
* `pyStrip` models Python `str.strip()` and `pyUpper` models `str.upper()`
  (the observed data is ASCII; `Char.toUpper` matches Python there).
* numeric cells after `pd.to_numeric(...).fillna(0)` are plain `ℚ`.
* a month column compared through `.dt.to_period("M")` is a `Nat` period index.
* dataframes are `List` of row structures; `groupby` is modelled as the
  deduplicated key list together with a filter per key (group order is
  irrelevant to every property proved here).
-/

namespace ForecastReports

/-- Python `str(x)` on a possibly-null cell: a null renders as "nan". -/
def pyStr (v : Option String) : String := v.getD "nan"

/-- Python `str.strip()` on the character list of a string. -/
def stripChars (l : List Char) : List Char :=
  ((l.dropWhile Char.isWhitespace).reverse.dropWhile Char.isWhitespace).reverse

/-- Python `str.strip()`. -/
def pyStrip (s : String) : String := String.mk (stripChars s.data)

/-- Python `str.upper()` (ASCII case folding, as in the observed data). -/
def pyUpper (s : String) : String := String.mk (s.data.map Char.toUpper)

/-- Embeds `normalize_key` (build_forecast_accuracy_report.py:105-106):
`series.astype(str).str.strip().str.upper()`, applied cell-wise. -/
def normalize_key (v : Option String) : String := pyUpper (pyStrip (pyStr v))

/-- Embeds `safe_ratio` (build_forecast_accuracy_report.py:300-303): `None`
on a zero denominator, otherwise the quotient. -/
def safe_div (numerator denominator : ℚ) : Option ℚ :=
  if denominator = 0 then none else some (numerator / denominator)

/-- Sum of a numeric column over the rows of a frame. -/
def sumBy {α : Type} (f : α → ℚ) (l : List α) : ℚ := (l.map f).sum

/-! ### Catalog expansion (build_forecast_accuracy_report.py:124-128) -/

/-- One row of `product_catalog_master` as loaded; `sku_list` may be null. -/
structure CatalogEntry where
  group_key : String
  business_unit_code : String
  business_unit_name : String
  product_family : String
  marketing_manager : String
  salesforce_feature_mode : String
  sku_list : Option String
deriving DecidableEq, Repr

/-- One exploded catalog row: the source entry's attributes plus a single
(stripped) sku token. -/
structure ExpandedCatalogRow where
  group_key : String
  business_unit_code : String
  business_unit_name : String
  product_family : String
  marketing_manager : String
  salesforce_feature_mode : String
  sku : List Char
deriving DecidableEq, Repr

/-- Python `str.split(sep)` for a one-character separator, on character
lists.  `"".split(sep) = [""]`; `"a|b".split("|") = ["a", "b"]`. -/
def splitOnChar (sep : Char) : List Char → List (List Char)
  | [] => [[]]
  | c :: cs =>
    if c = sep then [] :: splitOnChar sep cs
    else
      match splitOnChar sep cs with
      | t :: ts => (c :: t) :: ts
      | [] => [[c]]

/-- Embeds the sku_list explosion (build_forecast_accuracy_report.py:125-128):
`astype(str).str.split("|")`, `explode`, then `astype(str).str.strip()` of
each token.  A null `sku_list` passes through `astype(str)` as "nan". -/
def explode_sku_list (e : CatalogEntry) : List ExpandedCatalogRow :=
  (splitOnChar '|' (pyStr e.sku_list).data).map fun t =>
    { group_key := e.group_key
      business_unit_code := e.business_unit_code
      business_unit_name := e.business_unit_name
      product_family := e.product_family
      marketing_manager := e.marketing_manager
      salesforce_feature_mode := e.salesforce_feature_mode
      sku := stripChars t }

/-! ### Casework split (build_forecast_accuracy_report.py:143-157) -/

/-- One row of the inner join `marketing × expanded catalog`; only the raw
columns that the casework rule reads are modelled.  The helper key columns
`_bu_key`, `_product_key`, `_location_key`, `_group_key_norm` of the source
are `normalize_key` of these fields. -/
structure MergedRow where
  mBU : Option String
  mProduct : Option String
  mLocation : Option String
  group_key : Option String
deriving DecidableEq, Repr

/-- The `casework_location_map` dict: location key to required group key. -/
def casework_location_map (loc : String) : Option String :=
  if loc = "LOC1020" then some "ARTISAN CASEWORK"
  else if loc = "LOC1080" then some "SYNTHESIS CASEWORK"
  else none

/-- The `casework_mask` series: BU key "D200", product key "TOTAL CASEWORK",
location key one of the two mapped codes. -/
def casework_mask (r : MergedRow) : Bool :=
  decide (normalize_key r.mBU = "D200") &&
  decide (normalize_key r.mProduct = "TOTAL CASEWORK") &&
  (decide (normalize_key r.mLocation = "LOC1020") ||
   decide (normalize_key r.mLocation = "LOC1080"))

/-- Embeds lines 155-157: when any row triggers the mask, keep exactly the
rows satisfying `~casework_mask | (_group_key_norm == mapped_group)`;
otherwise leave the frame untouched. -/
def apply_casework_filter (l : List MergedRow) : List MergedRow :=
  if l.any casework_mask then
    l.filter fun r =>
      !casework_mask r ||
      decide (some (normalize_key r.group_key) =
        casework_location_map (normalize_key r.mLocation))
  else l

/-! ### Data-quality gating order (both `main` entry points) -/

/-- Data-quality enforcement mode (`--dq-mode`). -/
inductive DqMode where
  | off
  | warn
  | fail
deriving DecidableEq, Repr

/-- Externally visible side effects of a report run, in program order. -/
inductive RunEvent where
  | writeDqLog
  | writeReport
  | abortRun
deriving DecidableEq, Repr

/-- Embeds the effect order of `main` in build_forecast_accuracy_report_db.py
(lines 533-548): write the DQ log; in `fail` mode with a critical failure
raise `SystemExit` before `build_report_from_frames`; otherwise write the
report. -/
def monthly_main_events (mode : DqMode) (critical_failed : Nat) : List RunEvent :=
  RunEvent.writeDqLog ::
    (if mode = DqMode.fail ∧ 0 < critical_failed then [RunEvent.abortRun]
     else [RunEvent.writeReport])

/-- Embeds the effect order of `main` in
build_forecast_accuracy_trend_report_db.py (lines 520-538): write the DQ
log, then `write_outputs` (the trend workbook), and only afterwards raise
`SystemExit` in `fail` mode with a critical failure. -/
def trend_main_events (mode : DqMode) (critical_failed : Nat) : List RunEvent :=
  RunEvent.writeDqLog :: RunEvent.writeReport ::
    (if mode = DqMode.fail ∧ 0 < critical_failed then [RunEvent.abortRun] else [])

/-! ### Module-global actuals-file swap
(build_forecast_accuracy_report_db.py:437-471) -/

/-- The mutable module state of the legacy module: its `ACTUALS_FILE`
global. -/
structure LegacyModule where
  actuals_file : String
deriving DecidableEq, Repr

/-- Embeds `build_report_from_frames`: swap `legacy.ACTUALS_FILE` to the
temporary file, run `legacy.write_report` (which may raise, modelled by an
arbitrary `Except` outcome), and restore the global in a `finally` block,
which Python runs on both the normal and the raising path.  Returns the
final module state and the body's outcome. -/
def build_report_from_frames (g : LegacyModule) (tmp_actuals_file : String)
    (write_report_body : LegacyModule → Except String Unit) :
    LegacyModule × Except String Unit :=
  let swapped : LegacyModule := { actuals_file := tmp_actuals_file }
  let outcome := write_report_body swapped
  ({ actuals_file := g.actuals_file }, outcome)

/-! ### Raw reconciled records and the totals dashboard
(build_forecast_accuracy_report.py:261-277 and 306-386) -/

/-- One row of the "Raw Data" frame consumed by the dashboard builders.
The numeric columns are the already-coerced (`fillna(0)`) values. -/
structure RawRow where
  rProduct : String
  division : String
  bu_name : String
  prod_fam : String
  marketing_manager : String
  units : String
  actuals : ℚ
  stats_fcast : ℚ
  mkt_fcast : ℚ
  stats_abs_error : ℚ
  mkt_abs_error : ℚ
deriving DecidableEq, Repr

/-- One record of the totals dashboard frame. -/
structure DashRecord where
  units : String
  scope : String
  bu_code : String
  bu_name : String
  metric : String
  stats_model : Option ℚ
  marketing : Option ℚ
deriving DecidableEq, Repr

/-- `raw[raw["Units"] == units]`. -/
def unit_rows (rows : List RawRow) (u : String) : List RawRow :=
  rows.filter fun r => decide (r.units = u)

/-- The distinct `(Division, BU Name)` keys of a frame (`groupby` key set;
pandas iterates them sorted, but no property here depends on the order). -/
def bu_keys (l : List RawRow) : List (String × String) :=
  (l.map fun r => (r.division, r.bu_name)).dedup

/-- The rows of one `(Division, BU Name)` group. -/
def bu_group (l : List RawRow) (k : String × String) : List RawRow :=
  l.filter fun r => decide (r.division = k.1 ∧ r.bu_name = k.2)

/-- The "Midmark Fcast Acc." record appended for one group
(build_forecast_accuracy_report.py:317-338 / 352-373):
`safe_ratio(forecast_sum, actuals_sum)` per side. -/
def acc_record (u scope code name : String) (g : List RawRow) : DashRecord :=
  { units := u, scope := scope, bu_code := code, bu_name := name
    metric := "Midmark Fcast Acc."
    stats_model := safe_div (sumBy (·.stats_fcast) g) (sumBy (·.actuals) g)
    marketing := safe_div (sumBy (·.mkt_fcast) g) (sumBy (·.actuals) g) }

/-- The "WAPE" record appended for one group:
`safe_ratio(abs_error_sum, actuals_sum)` per side. -/
def wape_record (u scope code name : String) (g : List RawRow) : DashRecord :=
  { units := u, scope := scope, bu_code := code, bu_name := name
    metric := "WAPE"
    stats_model := safe_div (sumBy (·.stats_abs_error) g) (sumBy (·.actuals) g)
    marketing := safe_div (sumBy (·.mkt_abs_error) g) (sumBy (·.actuals) g) }

/-- One iteration of the `for units in ["quantity", "dollars"]` loop of
`build_totals_dashboard`: skip an empty unit frame, else one Acc and one
WAPE record per BU group followed by the all-BU totals pair. -/
def units_block (rows : List RawRow) (u : String) : List DashRecord :=
  let ud := unit_rows rows u
  if ud.isEmpty then []
  else
    ((bu_keys ud).flatMap fun k =>
      [acc_record u "BU" k.1 k.2 (bu_group ud k),
       wape_record u "BU" k.1 k.2 (bu_group ud k)]) ++
    [acc_record u "Total" "ALL" "Total" ud,
     wape_record u "Total" "ALL" "Total" ud]

/-- Embeds `build_totals_dashboard` (build_forecast_accuracy_report.py:
306-386). -/
def build_totals_dashboard (rows : List RawRow) : List DashRecord :=
  units_block rows "quantity" ++ units_block rows "dollars"

/-! ### Statistical-model rollup (build_forecast_accuracy_report.py:206-237) -/

/-- One row of the stats-model frame (`Forecast_Library`). -/
structure StatsRow where
  product_id : Option String
  bu_id : Option String
  forecast_month : Nat
  model_type : Option String
  recommended_model : Bool
  forecast_value : ℚ
deriving DecidableEq, Repr

/-- The normalized `(_product_key, _bu_key)` pair of a stats row. -/
def statsKey (r : StatsRow) : String × String :=
  (normalize_key r.product_id, normalize_key r.bu_id)

/-- `model_type.astype(str).str.upper().str.strip()` (line 210). -/
def statsModelType (r : StatsRow) : String :=
  pyStrip (pyUpper (pyStr r.model_type))

/-- `stats_blend` (line 213): target-month rows whose normalized model type
is "BLEND". -/
def stats_blend (stats : List StatsRow) (m : Nat) : List StatsRow :=
  (stats.filter fun r => decide (r.forecast_month = m)).filter fun r =>
    decide (statsModelType r = "BLEND")

/-- `stats_fallback` (line 214): target-month rows flagged
`recommended_model == True`. -/
def stats_fallback (stats : List StatsRow) (m : Nat) : List StatsRow :=
  (stats.filter fun r => decide (r.forecast_month = m)).filter fun r =>
    r.recommended_model

/-- The distinct normalized keys of a stats subset (`groupby` key set). -/
def statsKeys (l : List StatsRow) : List (String × String) :=
  (l.map statsKey).dedup

/-- The summed `forecast_value` of one key's group within a subset. -/
def statsKeySum (l : List StatsRow) (k : String × String) : ℚ :=
  sumBy (·.forecast_value) (l.filter fun r => decide (statsKey r = k))

/-- Embeds `stats_rollup` (lines 216-237): outer merge of the per-key blend
sums with the per-key recommended sums, coalesced with
`forecast_value_blend.where(notna, forecast_value_fallback)` — a key takes
its blend sum whenever the key has blend rows, else its fallback sum. -/
def stats_rollup (stats : List StatsRow) (m : Nat) :
    List ((String × String) × ℚ) :=
  (statsKeys (stats_blend stats m) ++ statsKeys (stats_fallback stats m)).dedup.map
    fun k =>
      (k,
       if k ∈ statsKeys (stats_blend stats m) then
         statsKeySum (stats_blend stats m) k
       else statsKeySum (stats_fallback stats m) k)

/-! ### Final reconciliation join (build_forecast_accuracy_report.py:239-259) -/

/-- One row of the marketing rollup `agg` going into the final joins; only
the columns those joins read are modelled. -/
structure AggRow where
  group_key : Option String
  business_unit_code : Option String
  marketing_fcast : ℚ
deriving DecidableEq, Repr

/-- The normalized `(_product_key, _bu_key)` pair of a marketing-rollup
row (lines 239-240). -/
def aggKey (a : AggRow) : String × String :=
  (normalize_key a.group_key, normalize_key a.business_unit_code)

/-- A left-join probe into a rollup keyed by normalized key pair (rollup
keys are unique because they come from a `groupby`). -/
def rollupLookup (rollup : List ((String × String) × ℚ)) (k : String × String) :
    Option ℚ :=
  (rollup.find? fun p => decide (p.1 = k)).map (·.2)

/-- The reconciled numeric columns of one `agg` row. -/
structure ReconRow where
  actuals : ℚ
  stats_fcast : ℚ
  mkt_fcast : ℚ
  stats_abs_error : ℚ
  mkt_abs_error : ℚ
deriving DecidableEq, Repr

/-- Embeds lines 242-259 for one marketing-rollup row: left-join the actuals
rollup and the stats rollup (a missing match is `fillna(0)`), then compute
both absolute errors from the filled values. -/
def reconcile (a : AggRow) (actuals_rollup stats_rollup : List ((String × String) × ℚ)) :
    ReconRow :=
  let act := (rollupLookup actuals_rollup (aggKey a)).getD 0
  let st := (rollupLookup stats_rollup (aggKey a)).getD 0
  { actuals := act
    stats_fcast := st
    mkt_fcast := a.marketing_fcast
    stats_abs_error := |act - st|
    mkt_abs_error := |act - a.marketing_fcast| }

/-! ### Trend per-month metric rows
(build_forecast_accuracy_trend_report_db.py:66-114) -/

/-- One long-form trend metric row produced by `_view_rows`. -/
structure TrendMetricRow where
  month_start : Nat
  units : String
  view_level : String
  bu_code : String
  bu_name : String
  prod_fam : String
  tProduct : String
  marketing_manager : String
  model_side : String
  metric_value : Option ℚ
  actuals_sum : ℚ
  forecast_sum : ℚ
  abs_error_sum : ℚ
deriving DecidableEq, Repr

/-- Embeds `_view_rows`: sums the five numeric columns of the group frame
and emits one stats-model row and one marketing row.  Note the source
computes `safe_ratio(actuals_sum, forecast_sum)` — actuals over forecast. -/
def view_rows (frame : List RawRow) (month : Nat)
    (u level code name fam prod mgr : String) : List TrendMetricRow :=
  let actualsSum := sumBy (·.actuals) frame
  let statsForecastSum := sumBy (·.stats_fcast) frame
  let marketingForecastSum := sumBy (·.mkt_fcast) frame
  let statsAbsSum := sumBy (·.stats_abs_error) frame
  let marketingAbsSum := sumBy (·.mkt_abs_error) frame
  [{ month_start := month, units := u, view_level := level, bu_code := code
     bu_name := name, prod_fam := fam, tProduct := prod
     marketing_manager := mgr, model_side := "stats_model"
     metric_value := safe_div actualsSum statsForecastSum
     actuals_sum := actualsSum, forecast_sum := statsForecastSum
     abs_error_sum := statsAbsSum },
   { month_start := month, units := u, view_level := level, bu_code := code
     bu_name := name, prod_fam := fam, tProduct := prod
     marketing_manager := mgr, model_side := "marketing"
     metric_value := safe_div actualsSum marketingForecastSum
     actuals_sum := actualsSum, forecast_sum := marketingForecastSum
     abs_error_sum := marketingAbsSum }]

/-! ### Trend product-grain top-N restriction
(build_forecast_accuracy_trend_report_db.py:326-336) -/

/-- `trend_df[trend_df["view_level"] == "product"]`. -/
def product_view_rows (trend : List TrendMetricRow) : List TrendMetricRow :=
  trend.filter fun r => decide (r.view_level = "product")

/-- One deduplicated `(units, product, actuals_sum)` ranking triple. -/
structure RankRow where
  units : String
  rProduct : String
  actuals : ℚ
deriving DecidableEq, Repr

/-- The `sort_values(["units", "actuals_sum", "product"],
ascending=[True, False, True])` ordering: units ascending, then actuals
descending, then product ascending.  String order is code-point
lexicographic, embedded as the `List.Lex` order on the character lists. -/
def rankLE (a b : RankRow) : Prop :=
  a.units.data < b.units.data ∨
    (a.units = b.units ∧
      (b.actuals < a.actuals ∨
        (a.actuals = b.actuals ∧ a.rProduct.data ≤ b.rProduct.data)))

instance : DecidableRel rankLE := fun a b => by
  unfold rankLE; infer_instance

instance : IsTotal RankRow rankLE where
  total a b := by
    unfold rankLE
    rcases lt_trichotomy a.units.data b.units.data with h | h | h
    · exact Or.inl (Or.inl h)
    · have hu : a.units = b.units := String.ext h
      rcases lt_trichotomy a.actuals b.actuals with h2 | h2 | h2
      · exact Or.inr (Or.inr ⟨hu.symm, Or.inl h2⟩)
      · rcases le_total a.rProduct.data b.rProduct.data with h3 | h3
        · exact Or.inl (Or.inr ⟨hu, Or.inr ⟨h2, h3⟩⟩)
        · exact Or.inr (Or.inr ⟨hu.symm, Or.inr ⟨h2.symm, h3⟩⟩)
      · exact Or.inl (Or.inr ⟨hu, Or.inl h2⟩)
    · exact Or.inr (Or.inl h)

instance : IsTrans RankRow rankLE where
  trans a b c hab hbc := by
    unfold rankLE at hab hbc ⊢
    rcases hab with h1 | ⟨e1, h1⟩
    · rcases hbc with h2 | ⟨e2, _⟩
      · exact Or.inl (h1.trans h2)
      · exact Or.inl (e2 ▸ h1)
    · rcases hbc with h2 | ⟨e2, h2⟩
      · exact Or.inl (e1.symm ▸ h2)
      · refine Or.inr ⟨e1.trans e2, ?_⟩
        rcases h1 with h1 | ⟨f1, h1⟩
        · rcases h2 with h2 | ⟨f2, _⟩
          · exact Or.inl (h2.trans h1)
          · exact Or.inl (f2 ▸ h1)
        · rcases h2 with h2 | ⟨f2, h2⟩
          · exact Or.inl (f1.symm ▸ h2)
          · exact Or.inr ⟨f1.trans f2, h1.trans h2⟩

/-- The distinct `(units, product, actuals_sum)` triples of the anchor
month's product-grain rows (`latest[["units", "product", "actuals_sum"]]
.drop_duplicates()`). -/
def rank_triples (trend : List TrendMetricRow) (anchor : Nat) : List RankRow :=
  (((product_view_rows trend).filter fun r =>
      decide (r.month_start = anchor)).map fun r =>
        { units := r.units, rProduct := r.tProduct, actuals := r.actuals_sum }).dedup

/-- The anchor-month ranking frame `latest_rank`: the distinct triples
sorted by the units-asc / actuals-desc / product-asc comparator. -/
def sorted_rank (trend : List TrendMetricRow) (anchor : Nat) : List RankRow :=
  List.insertionSort rankLE (rank_triples trend anchor)

/-- `top_keys` (lines 333-334): `groupby("units").cumcount() + 1 <= N`,
i.e. keep a sorted triple when at most `N - 1` earlier triples share its
units, and project to `(units, product)`. -/
def top_keys (trend : List TrendMetricRow) (anchor : Nat) (n : Nat) :
    List (String × String) :=
  ((sorted_rank trend anchor).enum.filter fun p =>
      decide (((sorted_rank trend anchor).take p.1).countP
        (fun t => decide (t.units = p.2.units)) + 1 ≤ n)).map
    fun p => (p.2.units, p.2.rProduct)

/-- `product_top` (line 336): inner merge of the product-grain rows with
`top_keys` on `(units, product)` — each row occurs once per matching key
row. -/
def product_top (trend : List TrendMetricRow) (anchor : Nat) (n : Nat) :
    List TrendMetricRow :=
  (product_view_rows trend).flatMap fun r =>
    ((top_keys trend anchor n).filter fun k =>
      decide (k.1 = r.units ∧ k.2 = r.tProduct)).map fun _ => r

/-- The group of raw rows a totals-dashboard record was computed from, as
determined by the record's own key fields: the whole unit frame for a
"Total" record, the `(Division, BU Name)` group for a "BU" record. -/
def dash_group (rows : List RawRow) (rec : DashRecord) : List RawRow :=
  if rec.scope = "Total" then unit_rows rows rec.units
  else bu_group (unit_rows rows rec.units) (rec.bu_code, rec.bu_name)

/-- The metric semantics claimed for one dashboard record over its group
`g`: the record is an Accuracy record holding `safe_ratio(F, A)` per side
or a WAPE record holding `safe_ratio(E, A)` per side; both sides are null
when `A = 0` (regardless of the numerators) and are the exact quotients
when `A ≠ 0`. -/
def dash_metric_spec (rec : DashRecord) (g : List RawRow) : Prop :=
  ((rec.metric = "Midmark Fcast Acc." ∧
      rec.stats_model = safe_div (sumBy (·.stats_fcast) g) (sumBy (·.actuals) g) ∧
      rec.marketing = safe_div (sumBy (·.mkt_fcast) g) (sumBy (·.actuals) g)) ∨
   (rec.metric = "WAPE" ∧
      rec.stats_model = safe_div (sumBy (·.stats_abs_error) g) (sumBy (·.actuals) g) ∧
      rec.marketing = safe_div (sumBy (·.mkt_abs_error) g) (sumBy (·.actuals) g))) ∧
  (sumBy (·.actuals) g = 0 → rec.stats_model = none ∧ rec.marketing = none) ∧
  (sumBy (·.actuals) g ≠ 0 →
    (rec.metric = "Midmark Fcast Acc." →
      rec.stats_model =
        some (sumBy (·.stats_fcast) g / sumBy (·.actuals) g) ∧
      rec.marketing =
        some (sumBy (·.mkt_fcast) g / sumBy (·.actuals) g)) ∧
    (rec.metric = "WAPE" →
      rec.stats_model =
        some (sumBy (·.stats_abs_error) g / sumBy (·.actuals) g) ∧
      rec.marketing =
        some (sumBy (·.mkt_abs_error) g / sumBy (·.actuals) g)))

/-! ### Concrete sample inputs used by witnesses and counterexamples -/

/-- One reconciled raw row (quantity units, nonzero actuals). -/
def rawQtyRow : RawRow :=
  { rProduct := "FAM1", division := "D100", bu_name := "BU One"
    prod_fam := "Fam", marketing_manager := "MM", units := "quantity"
    actuals := 2, stats_fcast := 4, mkt_fcast := 1
    stats_abs_error := 2, mkt_abs_error := 1 }

/-- A one-row raw frame. -/
def rawSample : List RawRow := [rawQtyRow]

/-- The all-BU totals Accuracy record of the sample frame's quantity
block. -/
def recTotalsAcc : DashRecord :=
  acc_record "quantity" "Total" "ALL" "Total" (unit_rows rawSample "quantity")

/-- A catalog entry with a two-token sku list. -/
def catTwoTokens : CatalogEntry :=
  { group_key := "FAM1", business_unit_code := "D100"
    business_unit_name := "BU One", product_family := "Fam"
    marketing_manager := "MM", salesforce_feature_mode := "Quantity"
    sku_list := some "WIDGET-A|WIDGET-B" }

/-- A catalog entry with a single token and no pipe. -/
def catOneToken : CatalogEntry :=
  { group_key := "FAM1", business_unit_code := "D100"
    business_unit_name := "BU One", product_family := "Fam"
    marketing_manager := "MM", salesforce_feature_mode := "Quantity"
    sku_list := some "WIDGET-A" }

/-- A catalog entry whose sku list cell is null/absent. -/
def catNullList : CatalogEntry :=
  { group_key := "FAM1", business_unit_code := "D100"
    business_unit_name := "BU One", product_family := "Fam"
    marketing_manager := "MM", salesforce_feature_mode := "Quantity"
    sku_list := none }

/-- A blend-model stats row for normalized key (P1, B1). -/
def statsBlendRow : StatsRow :=
  { product_id := some "p1", bu_id := some "b1", forecast_month := 1
    model_type := some " Blend ", recommended_model := false
    forecast_value := 5 }

/-- A recommended-flagged stats row for the same key (P1, B1). -/
def statsRecRow : StatsRow :=
  { product_id := some "P1", bu_id := some "B1", forecast_month := 1
    model_type := some "ARIMA", recommended_model := true
    forecast_value := 7 }

/-- A recommended-flagged stats row for key (P2, B1), with no blend row. -/
def statsRecOnlyRow : StatsRow :=
  { product_id := some "P2", bu_id := some "B1", forecast_month := 1
    model_type := some "ETS", recommended_model := true
    forecast_value := 9 }

/-- A small stats-model frame for the target month 1. -/
def statsSample : List StatsRow := [statsBlendRow, statsRecRow, statsRecOnlyRow]

/-- A marketing-rollup row whose key matches neither rollup. -/
def aggOrphan : AggRow :=
  { group_key := some "FAM9", business_unit_code := some "D100"
    marketing_fcast := 3 }

/-- The stats-model trend metric record of the sample frame (the record
`_view_rows` emits first). -/
def trendStatsRec : TrendMetricRow :=
  { month_start := 1, units := "quantity", view_level := "total"
    bu_code := "ALL", bu_name := "Total", prod_fam := "", tProduct := ""
    marketing_manager := "", model_side := "stats_model"
    metric_value :=
      safe_div (sumBy (·.actuals) rawSample) (sumBy (·.stats_fcast) rawSample)
    actuals_sum := sumBy (·.actuals) rawSample
    forecast_sum := sumBy (·.stats_fcast) rawSample
    abs_error_sum := sumBy (·.stats_abs_error) rawSample }

/-- A product-grain trend row: product PX in the anchor month 2, the
month's largest actuals volume. -/
def pxAnchorRow : TrendMetricRow :=
  { month_start := 2, units := "quantity", view_level := "product"
    bu_code := "D100", bu_name := "BU One", prod_fam := "Fam"
    tProduct := "PX", marketing_manager := "MM", model_side := "stats_model"
    metric_value := none, actuals_sum := 10, forecast_sum := 0
    abs_error_sum := 10 }

/-- Product PY in the anchor month 2, ranked below PX there. -/
def pyAnchorRow : TrendMetricRow :=
  { month_start := 2, units := "quantity", view_level := "product"
    bu_code := "D100", bu_name := "BU One", prod_fam := "Fam"
    tProduct := "PY", marketing_manager := "MM", model_side := "stats_model"
    metric_value := none, actuals_sum := 5, forecast_sum := 0
    abs_error_sum := 5 }

/-- Product PX in the earlier month 1, with a tiny volume there. -/
def pxEarlierRow : TrendMetricRow :=
  { month_start := 1, units := "quantity", view_level := "product"
    bu_code := "D100", bu_name := "BU One", prod_fam := "Fam"
    tProduct := "PX", marketing_manager := "MM", model_side := "stats_model"
    metric_value := none, actuals_sum := 1, forecast_sum := 0
    abs_error_sum := 1 }

/-- Product PY in the earlier month 1, where it ranks first by volume. -/
def pyEarlierRow : TrendMetricRow :=
  { month_start := 1, units := "quantity", view_level := "product"
    bu_code := "D100", bu_name := "BU One", prod_fam := "Fam"
    tProduct := "PY", marketing_manager := "MM", model_side := "stats_model"
    metric_value := none, actuals_sum := 50, forecast_sum := 0
    abs_error_sum := 50 }

/-- A two-month product-grain trend frame with anchor month 2. -/
def trendSample : List TrendMetricRow :=
  [pxAnchorRow, pyAnchorRow, pxEarlierRow, pyEarlierRow]

/-- A casework marketing×catalog row for LOC1020 joined to the Artisan
family (lower-case raw cells exercise normalization). -/
def mrow1020 : MergedRow :=
  { mBU := some "D200", mProduct := some "Total Casework"
    mLocation := some " loc1020 ", group_key := some "Artisan Casework" }

/-- A casework row for LOC1080 wrongly joined to the Artisan family. -/
def mrow1080bad : MergedRow :=
  { mBU := some "D200", mProduct := some "TOTAL CASEWORK"
    mLocation := some "LOC1080", group_key := some "ARTISAN CASEWORK" }

/-- A non-casework row (null location) that must keep its match. -/
def mrowOther : MergedRow :=
  { mBU := some "D100", mProduct := some "WIDGET-A"
    mLocation := none, group_key := some "FAM1" }

/-- A small merged frame containing casework and non-casework rows. -/
def mergedSample : List MergedRow := [mrow1020, mrow1080bad, mrowOther]

end ForecastReports

namespace ForecastReports

/-! ## Theorems -/

/-- `splitOnChar` never returns the empty list (Python `split` always
yields at least one token). -/
theorem splitOnChar_ne_nil (sep : Char) : ∀ l : List Char, splitOnChar sep l ≠ []
  | [] => by simp [splitOnChar]
  | c :: cs => by
    have ih := splitOnChar_ne_nil sep cs
    by_cases hc : c = sep
    · simp [splitOnChar, hc]
    · rcases h : splitOnChar sep cs with _ | ⟨t, ts⟩
      · exact absurd h ih
      · simp [splitOnChar, hc, h]

/-- Token count of `splitOnChar`: one more than the separator count. -/
theorem length_splitOnChar (sep : Char) :
    ∀ l : List Char, (splitOnChar sep l).length = l.count sep + 1
  | [] => by simp [splitOnChar]
  | c :: cs => by
    have ih := length_splitOnChar sep cs
    by_cases hc : c = sep
    · simp [splitOnChar, hc, List.count_cons, ih]
    · rcases h : splitOnChar sep cs with _ | ⟨t, ts⟩
      · exact absurd h (splitOnChar_ne_nil sep cs)
      · rw [h] at ih
        simp [splitOnChar, hc, h, List.count_cons, Ne.symm hc] at ih ⊢
        omega

/-- Claim C8: key normalization is total over possibly-null cells and never
raises (it is a Lean function); a null cell is rendered "nan" by
`astype(str)` and normalizes to the literal placeholder "NAN", so any two
null keys normalize to the same value. -/
theorem claim_normalize_key_total :
    normalize_key none = "NAN" ∧
    (∀ v w : Option String, v = none → w = none →
      normalize_key v = normalize_key w) := by
  refine ⟨rfl, ?_⟩
  intro v w hv hw
  rw [hv, hw]

/-- Witness for C8 at the concrete null input. -/
theorem claim_normalize_key_total_witness :
    normalize_key none = "NAN" ∧ normalize_key none = normalize_key none :=
  ⟨claim_normalize_key_total.1,
   claim_normalize_key_total.2 none none rfl rfl⟩

/-- Claim C10: `build_report_from_frames` restores `legacy.ACTUALS_FILE` to
its prior value whatever the wrapped `legacy.write_report` does (normal
return or raise), because the swap is undone in a `finally` block; the
body itself runs against the swapped path. -/
theorem claim_actuals_file_restored (g : LegacyModule) (tmp : String)
    (body : LegacyModule → Except String Unit) :
    (build_report_from_frames g tmp body).1.actuals_file = g.actuals_file ∧
    (build_report_from_frames g tmp body).2 = body { actuals_file := tmp } :=
  ⟨rfl, rfl⟩

/-- Counterexample to Claim C5: in `fail` mode with one critical failure the
trend `main` still writes the trend workbook — `write_outputs` runs before
the `SystemExit`, so a report artifact is produced. -/
theorem claim_dq_fail_counterexample :
    RunEvent.writeReport ∈ trend_main_events DqMode.fail 1 ∧
    trend_main_events DqMode.fail 1 =
      [RunEvent.writeDqLog, RunEvent.writeReport, RunEvent.abortRun] := by
  constructor <;> decide

/-- Claim C5 (amended): in `fail` mode with a critical failure the monthly
report aborts before writing its report artifact, but the trend report
writes its workbook first and aborts only afterwards. -/
theorem claim_dq_fail_amended (cf : Nat) (h : 0 < cf) :
    monthly_main_events DqMode.fail cf =
      [RunEvent.writeDqLog, RunEvent.abortRun] ∧
    RunEvent.writeReport ∉ monthly_main_events DqMode.fail cf ∧
    trend_main_events DqMode.fail cf =
      [RunEvent.writeDqLog, RunEvent.writeReport, RunEvent.abortRun] := by
  refine ⟨?_, ?_, ?_⟩ <;> simp [monthly_main_events, trend_main_events, h]

/-- Counterexample to Claim C7: an absent (null) sku list does not expand to
a row with an empty code — `astype(str)` renders the null as "nan", so the
single output row carries the code "nan". -/
theorem claim_catalog_expansion_counterexample :
    (explode_sku_list catNullList).map (·.sku) = ["nan".data] ∧
    "nan".data ≠ ([] : List Char) := by
  constructor <;> decide

/-- Claim C7 (amended): expansion yields exactly one output row per
pipe-separated token of the sku list (token count = pipe count + 1), each
row carrying that token stripped plus every other attribute of the source
entry; a single pipe-free token yields exactly one row; an empty-string
list yields one row with an empty code; an absent (null) list yields one
row whose code is the null rendering "nan", not an empty code. -/
theorem claim_catalog_expansion_amended (e : CatalogEntry) :
    (explode_sku_list e).length =
      (splitOnChar '|' (pyStr e.sku_list).data).length ∧
    (splitOnChar '|' (pyStr e.sku_list).data).length =
      (pyStr e.sku_list).data.count '|' + 1 ∧
    (∀ row ∈ explode_sku_list e,
      row.group_key = e.group_key ∧
      row.business_unit_code = e.business_unit_code ∧
      row.business_unit_name = e.business_unit_name ∧
      row.product_family = e.product_family ∧
      row.marketing_manager = e.marketing_manager ∧
      row.salesforce_feature_mode = e.salesforce_feature_mode ∧
      ∃ t ∈ splitOnChar '|' (pyStr e.sku_list).data, row.sku = stripChars t) ∧
    (∀ s : String, e.sku_list = some s → '|' ∉ s.data →
      (explode_sku_list e).length = 1) ∧
    (e.sku_list = some "" → (explode_sku_list e).map (·.sku) = [[]]) ∧
    (e.sku_list = none → (explode_sku_list e).map (·.sku) = ["nan".data]) := by
  refine ⟨by simp [explode_sku_list], length_splitOnChar _ _, ?_, ?_, ?_, ?_⟩
  · intro row hrow
    simp only [explode_sku_list, List.mem_map] at hrow
    obtain ⟨t, ht, rfl⟩ := hrow
    exact ⟨rfl, rfl, rfl, rfl, rfl, rfl, t, ht, rfl⟩
  · intro s hs hpipe
    have hcount : s.data.count '|' = 0 := List.count_eq_zero.mpr hpipe
    simp [explode_sku_list, hs, length_splitOnChar, pyStr, hcount]
  · intro hs
    simp [explode_sku_list, hs, pyStr, splitOnChar, stripChars]
  · intro hs
    simp only [explode_sku_list, hs, List.map_map]
    show List.map (fun t => stripChars t) (splitOnChar '|' (pyStr none).data) =
      ["nan".data]
    decide

/-- Witness for the amended C7: the two-token, one-token and empty-list
entries expand as stated. -/
theorem claim_catalog_expansion_amended_witness :
    (explode_sku_list catTwoTokens).length =
      (splitOnChar '|' (pyStr catTwoTokens.sku_list).data).length ∧
    (explode_sku_list catOneToken).length = 1 ∧
    (explode_sku_list catNullList).map (·.sku) = ["nan".data] :=
  ⟨(claim_catalog_expansion_amended catTwoTokens).1,
   (claim_catalog_expansion_amended catOneToken).2.2.2.1 "WIDGET-A" rfl (by decide),
   (claim_catalog_expansion_amended catNullList).2.2.2.2.2 rfl⟩

/-- Claim C6: in the reconciliation join, a casework-masked row (BU key
"D200", product key "TOTAL CASEWORK", location key LOC1020/LOC1080)
survives exactly when its normalized group key equals the family mapped
from its location key (ARTISAN CASEWORK for LOC1020, SYNTHESIS CASEWORK
for LOC1080); unmasked rows keep all their inner-join matches, and the
filter is a no-op when no row triggers the mask. -/
theorem claim_casework_filter (l : List MergedRow) (r : MergedRow) :
    (casework_mask r = true →
      (r ∈ apply_casework_filter l ↔
        r ∈ l ∧ some (normalize_key r.group_key) =
          casework_location_map (normalize_key r.mLocation))) ∧
    (casework_mask r = false →
      (r ∈ apply_casework_filter l ↔ r ∈ l)) ∧
    (l.any casework_mask = false → apply_casework_filter l = l) ∧
    (normalize_key r.mLocation = "LOC1020" →
      casework_location_map (normalize_key r.mLocation) =
        some "ARTISAN CASEWORK") ∧
    (normalize_key r.mLocation = "LOC1080" →
      casework_location_map (normalize_key r.mLocation) =
        some "SYNTHESIS CASEWORK") := by
  refine ⟨?_, ?_, ?_, ?_, ?_⟩
  · intro hmask
    by_cases hany : l.any casework_mask
    · simp only [apply_casework_filter, hany, if_true, List.mem_filter, hmask,
        Bool.not_true, Bool.false_or, decide_eq_true_eq]
    · simp only [apply_casework_filter, hany, if_false]
      constructor
      · intro hmem
        exact absurd (List.any_eq_true.mpr ⟨r, hmem, hmask⟩) hany
      · intro hmem
        exact absurd (List.any_eq_true.mpr ⟨r, hmem.1, hmask⟩) hany
  · intro hmask
    by_cases hany : l.any casework_mask
    · simp [apply_casework_filter, hany, List.mem_filter, hmask]
    · simp [apply_casework_filter, hany]
  · intro hany
    simp [apply_casework_filter, hany]
  · intro h
    rw [h]
    decide
  · intro h
    rw [h]
    decide

/-- Witness for C6 on a concrete frame: the LOC1020 row joined to the
Artisan family survives, the LOC1080 row wrongly joined to the Artisan
family is dropped, and the unmasked row keeps its match. -/
theorem claim_casework_filter_witness :
    mrow1020 ∈ apply_casework_filter mergedSample ∧
    mrow1080bad ∉ apply_casework_filter mergedSample ∧
    mrowOther ∈ apply_casework_filter mergedSample := by
  refine ⟨?_, ?_, ?_⟩
  · exact ((claim_casework_filter mergedSample mrow1020).1 (by decide)).mpr
      ⟨by decide, by decide⟩
  · intro hmem
    have h := ((claim_casework_filter mergedSample mrow1080bad).1
      (by decide)).mp hmem
    exact absurd h.2 (by decide)
  · exact ((claim_casework_filter mergedSample mrowOther).2.1 (by decide)).mpr
      (by decide)

/-- An Accuracy record satisfies the dashboard metric semantics over the
group it was built from. -/
theorem acc_record_spec (u s c n : String) (g : List RawRow) :
    dash_metric_spec (acc_record u s c n g) g := by
  unfold dash_metric_spec
  refine ⟨Or.inl ⟨rfl, rfl, rfl⟩, ?_, ?_⟩
  · intro hA
    constructor <;> simp [acc_record, safe_div, hA]
  · intro hA
    constructor
    · intro _
      constructor <;> simp [acc_record, safe_div, hA]
    · intro hm
      simp [acc_record] at hm

/-- A WAPE record satisfies the dashboard metric semantics over the group
it was built from. -/
theorem wape_record_spec (u s c n : String) (g : List RawRow) :
    dash_metric_spec (wape_record u s c n g) g := by
  unfold dash_metric_spec
  refine ⟨Or.inr ⟨rfl, rfl, rfl⟩, ?_, ?_⟩
  · intro hA
    constructor <;> simp [wape_record, safe_div, hA]
  · intro hA
    constructor
    · intro hm
      simp [wape_record] at hm
    · intro _
      constructor <;> simp [wape_record, safe_div, hA]

/-- Every record of one `units_block` iteration is one of the four record
shapes built from that iteration's groups. -/
theorem mem_units_block {rows : List RawRow} {u : String} {rec : DashRecord}
    (h : rec ∈ units_block rows u) :
    (∃ k ∈ bu_keys (unit_rows rows u),
      rec = acc_record u "BU" k.1 k.2 (bu_group (unit_rows rows u) k) ∨
      rec = wape_record u "BU" k.1 k.2 (bu_group (unit_rows rows u) k)) ∨
    rec = acc_record u "Total" "ALL" "Total" (unit_rows rows u) ∨
    rec = wape_record u "Total" "ALL" "Total" (unit_rows rows u) := by
  by_cases he : (unit_rows rows u).isEmpty
  · simp [units_block, he] at h
  · simp only [units_block, he, Bool.false_eq_true, if_false, List.mem_append,
      List.mem_flatMap, List.mem_cons, List.not_mem_nil, or_false] at h
    rcases h with ⟨k, hk, hrec⟩ | hrec
    · exact Or.inl ⟨k, hk, hrec⟩
    · exact Or.inr hrec

/-- Every record of one `units_block` iteration satisfies the metric
semantics over the group determined by its own key fields. -/
theorem units_block_spec {rows : List RawRow} {u : String} {rec : DashRecord}
    (h : rec ∈ units_block rows u) :
    dash_metric_spec rec (dash_group rows rec) := by
  rcases mem_units_block h with ⟨k, _, hrec | hrec⟩ | hrec | hrec
  all_goals subst hrec
  · have hg : dash_group rows (acc_record u "BU" k.1 k.2
        (bu_group (unit_rows rows u) k)) = bu_group (unit_rows rows u) k := by
      simp [dash_group, acc_record]
    rw [hg]
    exact acc_record_spec _ _ _ _ _
  · have hg : dash_group rows (wape_record u "BU" k.1 k.2
        (bu_group (unit_rows rows u) k)) = bu_group (unit_rows rows u) k := by
      simp [dash_group, wape_record]
    rw [hg]
    exact wape_record_spec _ _ _ _ _
  · have hg : dash_group rows (acc_record u "Total" "ALL" "Total"
        (unit_rows rows u)) = unit_rows rows u := by
      simp [dash_group, acc_record]
    rw [hg]
    exact acc_record_spec _ _ _ _ _
  · have hg : dash_group rows (wape_record u "Total" "ALL" "Total"
        (unit_rows rows u)) = unit_rows rows u := by
      simp [dash_group, wape_record]
    rw [hg]
    exact wape_record_spec _ _ _ _ _

/-- Claim C1: every record the totals-dashboard builder emits carries, for
each side, `safe_ratio(forecast-sum, actuals-sum)` (Accuracy) or
`safe_ratio(abs-error-sum, actuals-sum)` (WAPE) over its own grain's group;
both sides are null when the group's actuals sum is zero, regardless of the
numerators, and are the exact quotients otherwise; division by zero cannot
occur (`safe_div` is total). -/
theorem claim_totals_dashboard_metrics (rows : List RawRow) (rec : DashRecord)
    (h : rec ∈ build_totals_dashboard rows) :
    dash_metric_spec rec (dash_group rows rec) := by
  rcases List.mem_append.mp h with h1 | h1
  · exact units_block_spec h1
  · exact units_block_spec h1

/-- Witness for C1: the sample frame's totals Accuracy record. -/
theorem claim_totals_dashboard_metrics_witness :
    dash_metric_spec recTotalsAcc (dash_group rawSample recTotalsAcc) :=
  claim_totals_dashboard_metrics rawSample recTotalsAcc
    (by
      have hne : (unit_rows rawSample "quantity").isEmpty = false := by decide
      show recTotalsAcc ∈ units_block rawSample "quantity" ++
        units_block rawSample "dollars"
      refine List.mem_append_left _ ?_
      show recTotalsAcc ∈
        if (unit_rows rawSample "quantity").isEmpty then []
        else
          ((bu_keys (unit_rows rawSample "quantity")).flatMap fun k =>
            [acc_record "quantity" "BU" k.1 k.2
              (bu_group (unit_rows rawSample "quantity") k),
             wape_record "quantity" "BU" k.1 k.2
              (bu_group (unit_rows rawSample "quantity") k)]) ++
          [acc_record "quantity" "Total" "ALL" "Total"
            (unit_rows rawSample "quantity"),
           wape_record "quantity" "Total" "ALL" "Total"
            (unit_rows rawSample "quantity")]
      rw [hne]
      exact List.mem_append_right _ (List.mem_cons_self _ _))

/-- Witness for the amended C5 at one critical failure. -/
theorem claim_dq_fail_amended_witness :
    monthly_main_events DqMode.fail 1 =
      [RunEvent.writeDqLog, RunEvent.abortRun] ∧
    RunEvent.writeReport ∉ monthly_main_events DqMode.fail 1 ∧
    trend_main_events DqMode.fail 1 =
      [RunEvent.writeDqLog, RunEvent.writeReport, RunEvent.abortRun] :=
  claim_dq_fail_amended 1 (by decide)

/-- Key membership in a stats subset's `groupby` key set. -/
theorem mem_statsKeys {l : List StatsRow} {k : String × String} :
    k ∈ statsKeys l ↔ ∃ r ∈ l, statsKey r = k := by
  simp [statsKeys, List.mem_dedup, List.mem_map]

/-- Claim C2: every key of the statistical-model rollup for the target
month carries the sum of its blend-model rows when any exist, and
otherwise the sum of its recommended-flagged rows — per key, never the
two sums combined. -/
theorem claim_stats_rollup_coalesce (stats : List StatsRow) (m : Nat)
    (k : String × String) (v : ℚ)
    (h : (k, v) ∈ stats_rollup stats m) :
    ((∃ r ∈ stats_blend stats m, statsKey r = k) →
      v = statsKeySum (stats_blend stats m) k) ∧
    ((¬ ∃ r ∈ stats_blend stats m, statsKey r = k) →
      v = statsKeySum (stats_fallback stats m) k) := by
  obtain ⟨k', _, heq⟩ := List.mem_map.mp h
  simp only [Prod.mk.injEq] at heq
  obtain ⟨rfl, hv⟩ := heq
  by_cases hb : k' ∈ statsKeys (stats_blend stats m)
  · rw [if_pos hb] at hv
    exact ⟨fun _ => hv.symm, fun hex => absurd (mem_statsKeys.mp hb) hex⟩
  · rw [if_neg hb] at hv
    exact ⟨fun hex => absurd (mem_statsKeys.mpr hex) hb, fun _ => hv.symm⟩

/-- Witness for C2: on the sample frame, key (P1, B1) has both a blend row
and a recommended row; its rollup value 5 is exactly the blend sum (the
recommended value 7 is not added). -/
theorem claim_stats_rollup_coalesce_witness :
    ((("P1", "B1"), (5 : ℚ)) ∈ stats_rollup statsSample 1) ∧
    (5 : ℚ) = statsKeySum (stats_blend statsSample 1) ("P1", "B1") := by
  have hblend : stats_blend statsSample 1 = [statsBlendRow] := by decide
  have hfilter : ([statsBlendRow].filter fun r =>
      decide (statsKey r = ("P1", "B1"))) = [statsBlendRow] := by decide
  have hval : statsKeySum (stats_blend statsSample 1) ("P1", "B1") = 5 := by
    rw [statsKeySum, hblend, hfilter]
    simp [sumBy, statsBlendRow]
  have hmem : (("P1", "B1"), (5 : ℚ)) ∈ stats_rollup statsSample 1 :=
    List.mem_map.mpr ⟨("P1", "B1"), by decide, by rw [if_pos (by decide), hval]⟩
  exact ⟨hmem,
    (claim_stats_rollup_coalesce statsSample 1 _ _ hmem).1
      ⟨statsBlendRow, by rw [hblend]; exact List.mem_singleton.mpr rfl, by decide⟩⟩

/-- Claim C3: in the final left-join, a side with no rollup match is filled
with exactly zero (not null); the absolute errors are always defined (and
are zero when both sides are missing); and a row with no actuals match has
actuals 0, so any `safe_ratio` with that actuals sum as denominator is
null (zero-denominator), not a missing-data error. -/
theorem claim_zero_fill_missing (a : AggRow)
    (ar sr : List ((String × String) × ℚ)) :
    (rollupLookup ar (aggKey a) = none →
      (reconcile a ar sr).actuals = 0 ∧
      (∀ x : ℚ, safe_div x (reconcile a ar sr).actuals = none)) ∧
    (rollupLookup sr (aggKey a) = none →
      (reconcile a ar sr).stats_fcast = 0) ∧
    (rollupLookup ar (aggKey a) = none →
      rollupLookup sr (aggKey a) = none →
      (reconcile a ar sr).stats_abs_error = 0) ∧
    ((reconcile a ar sr).stats_abs_error =
      |(reconcile a ar sr).actuals - (reconcile a ar sr).stats_fcast|) ∧
    ((reconcile a ar sr).mkt_abs_error =
      |(reconcile a ar sr).actuals - a.marketing_fcast|) := by
  refine ⟨?_, ?_, ?_, rfl, rfl⟩
  · intro hnone
    constructor
    · simp [reconcile, hnone]
    · intro x
      simp [reconcile, hnone, safe_div]
  · intro hnone
    simp [reconcile, hnone]
  · intro h1 h2
    simp [reconcile, h1, h2]

/-- Witness for C3: an agg row matched by neither rollup. -/
theorem claim_zero_fill_missing_witness :
    (reconcile aggOrphan [] []).actuals = 0 ∧
    safe_div 7 (reconcile aggOrphan [] []).actuals = none ∧
    (reconcile aggOrphan [] []).stats_abs_error = 0 := by
  have h := claim_zero_fill_missing aggOrphan [] []
  exact ⟨(h.1 rfl).1, (h.1 rfl).2 7, h.2.2.1 rfl rfl⟩

/-- Counterexample to Claim C4: on a one-row frame with actuals sum 1 and
stats forecast sum 2, `_view_rows` reports a stats-side metric of 1/2,
while the dashboard pipeline's `safe_ratio(forecast_sum, actuals_sum)` is
2 — the trend metric is not sum(forecast)/sum(actuals). -/
theorem claim_trend_acc_counterexample :
    ((view_rows rawSample 1 "quantity" "total" "ALL" "Total" "" "" "").map
      (·.metric_value)) = [some ((1 : ℚ)/2), some (2 : ℚ)] ∧
    safe_div (sumBy (·.stats_fcast) rawSample) (sumBy (·.actuals) rawSample) =
      some (2 : ℚ) ∧
    some ((1 : ℚ)/2) ≠ some (2 : ℚ) := by
  refine ⟨?_, ?_, ?_⟩
  · norm_num [view_rows, safe_div, sumBy, rawSample, rawQtyRow]
  · norm_num [safe_div, sumBy, rawSample, rawQtyRow]
  · norm_num

/-- Claim C4 (amended): each trend metric row's value is
`safe_ratio(actuals_sum, forecast_sum)` — actuals over forecast, the
reciprocal of the dashboard's Accuracy-Ratio — and it is null exactly when
that side's forecast sum is zero (not when the actuals sum is zero). -/
theorem claim_trend_acc_amended (frame : List RawRow) (month : Nat)
    (u level code name fam prod mgr : String) (rec : TrendMetricRow)
    (h : rec ∈ view_rows frame month u level code name fam prod mgr) :
    rec.metric_value = safe_div rec.actuals_sum rec.forecast_sum ∧
    (rec.metric_value = none ↔ rec.forecast_sum = 0) ∧
    (rec.forecast_sum ≠ 0 → rec.actuals_sum ≠ 0 →
      rec.metric_value = some (rec.actuals_sum / rec.forecast_sum) ∧
      safe_div rec.forecast_sum rec.actuals_sum =
        some (rec.forecast_sum / rec.actuals_sum) ∧
      rec.actuals_sum / rec.forecast_sum *
        (rec.forecast_sum / rec.actuals_sum) = 1) := by
  have hshape :
      rec.metric_value = safe_div rec.actuals_sum rec.forecast_sum := by
    simp only [view_rows, List.mem_cons, List.not_mem_nil, or_false] at h
    rcases h with rfl | rfl <;> rfl
  refine ⟨hshape, ?_, ?_⟩
  · rw [hshape]
    unfold safe_div
    by_cases hf : rec.forecast_sum = 0 <;> simp [hf]
  · intro hf ha
    refine ⟨by rw [hshape]; simp [safe_div, hf], by simp [safe_div, ha], ?_⟩
    rw [div_mul_div_comm, mul_comm rec.actuals_sum rec.forecast_sum]
    exact div_self (mul_ne_zero hf ha)

/-- Witness for the amended C4: the stats-model record of the sample
frame. -/
theorem claim_trend_acc_amended_witness :
    trendStatsRec.metric_value =
      safe_div trendStatsRec.actuals_sum trendStatsRec.forecast_sum ∧
    (trendStatsRec.metric_value = none ↔ trendStatsRec.forecast_sum = 0) ∧
    (trendStatsRec.forecast_sum ≠ 0 → trendStatsRec.actuals_sum ≠ 0 →
      trendStatsRec.metric_value =
        some (trendStatsRec.actuals_sum / trendStatsRec.forecast_sum) ∧
      safe_div trendStatsRec.forecast_sum trendStatsRec.actuals_sum =
        some (trendStatsRec.forecast_sum / trendStatsRec.actuals_sum) ∧
      trendStatsRec.actuals_sum / trendStatsRec.forecast_sum *
        (trendStatsRec.forecast_sum / trendStatsRec.actuals_sum) = 1) :=
  claim_trend_acc_amended rawSample 1 "quantity" "total" "ALL" "Total" "" "" ""
    trendStatsRec (List.mem_cons_self _ _)

/-- Two interleaved filters by the same predicate collapse: filtering by
`p`, then `q`, then `p` again equals filtering by `q` then `p`. -/
theorem filter_filter_absorb {α : Type} (p q : α → Bool) (l : List α) :
    ((l.filter p).filter q).filter p = (l.filter q).filter p := by
  induction l with
  | nil => rfl
  | cons a t ih =>
    by_cases hp : p a <;> by_cases hq : q a <;>
      simp only [List.filter_cons, hp, hq, if_true, if_false, Bool.false_eq_true,
        ite_true, ite_false, ih]

/-- Claim C9: the trend product-grain top-N key set is computed solely from
the anchor month's rows; the ranking frame is sorted units-asc /
actuals-desc / product-asc, so products with equal anchor actuals are
ordered lexicographically; and a product-grain row survives the top-N
restriction exactly when its `(units, product)` key is in the anchor
top-N set — in every month of the window, regardless of that product's
rank in other months. -/
theorem claim_topn_anchor_stability (trend : List TrendMetricRow)
    (anchor n : Nat) (r : TrendMetricRow) :
    (top_keys trend anchor n =
      top_keys (trend.filter fun q => decide (q.month_start = anchor))
        anchor n) ∧
    List.Sorted rankLE (sorted_rank trend anchor) ∧
    (∀ a b : RankRow, a.units = b.units → a.actuals = b.actuals →
      (rankLE a b ↔ a.rProduct.data ≤ b.rProduct.data)) ∧
    (r ∈ product_top trend anchor n ↔
      r ∈ product_view_rows trend ∧
      (r.units, r.tProduct) ∈ top_keys trend anchor n) := by
  have htriples : rank_triples
      (trend.filter fun q => decide (q.month_start = anchor)) anchor =
      rank_triples trend anchor := by
    unfold rank_triples product_view_rows
    rw [filter_filter_absorb]
  refine ⟨?_, ?_, ?_, ?_⟩
  · unfold top_keys sorted_rank
    rw [htriples]
  · exact List.sorted_insertionSort rankLE (rank_triples trend anchor)
  · intro a b h1 h2
    unfold rankLE
    constructor
    · rintro (h | ⟨_, h | ⟨_, h⟩⟩)
      · exact absurd h (by rw [h1]; exact lt_irrefl _)
      · exact absurd h (by rw [h2]; exact lt_irrefl _)
      · exact h
    · intro h
      exact Or.inr ⟨h1, Or.inr ⟨h2, h⟩⟩
  · constructor
    · intro hmem
      obtain ⟨q, hq, hmap⟩ := List.mem_flatMap.mp hmem
      obtain ⟨k, hk, rfl⟩ := List.mem_map.mp hmap
      refine ⟨hq, ?_⟩
      obtain ⟨hk1, hk2⟩ := List.mem_filter.mp hk
      obtain ⟨he1, he2⟩ := of_decide_eq_true hk2
      have hkey : (q.units, q.tProduct) = k := by
        rw [← he1, ← he2]
      rw [hkey]
      exact hk1
    · rintro ⟨hview, hkey⟩
      refine List.mem_flatMap.mpr ⟨r, hview, ?_⟩
      refine List.mem_map.mpr ⟨(r.units, r.tProduct), ?_, rfl⟩
      exact List.mem_filter.mpr ⟨hkey, by simp⟩

/-- Witness for C9 on the two-month sample with N = 1: PX (the anchor
month's top product) appears in the earlier month's output even though PY
out-ranks it there, and PY appears in no month. -/
theorem claim_topn_anchor_stability_witness :
    pxEarlierRow ∈ product_top trendSample 2 1 ∧
    pyEarlierRow ∉ product_top trendSample 2 1 := by
  constructor
  · exact (claim_topn_anchor_stability trendSample 2 1 pxEarlierRow).2.2.2.mpr
      ⟨by decide, by decide⟩
  · intro hmem
    have h := (claim_topn_anchor_stability trendSample 2 1
      pyEarlierRow).2.2.2.mp hmem
    exact absurd h.2 (by decide)

end ForecastReports
